import Mathlib

/-!
Shallow embedding of the Binary-Options-Hedging-Simulator core
(src/models.py and src/simulator.py) over exact rational arithmetic.

Python floats are modelled as rationals.  The two transcendental
sub-computations of the source, np.sqrt(time_days / 365) inside
calculate_expected_move and the standard normal CDF applied to d2 inside
calculate_probability_itm, have no rational counterpart; they are passed
in as explicit arguments (sqrtTimeYears, normCdf, and d2general for the
quotient log(cp/sp) / (iv * sqrt(time_years))).  Every claim below either
does not depend on those arguments at all or holds for every value of
them, so the abstraction is conservative.
-/

namespace Sim

/-- Direction of the binary bet, the up and down strings of the source. -/
inductive Direction where
  | up : Direction
  | down : Direction
deriving DecidableEq

/-- Hedge direction, the long and short strings of the source. -/
inductive HedgeDirection where
  | long : HedgeDirection
  | short : HedgeDirection
deriving DecidableEq

/-- Embeds the BinaryOptionParams dataclass of src/models.py. -/
structure BinaryOptionParams where
  current_price : ℚ
  strike_price : ℚ
  payout_multiplier_up : ℚ
  payout_multiplier_down : ℚ
  investment_amount : ℚ
  probability_up : ℚ
  implied_volatility : ℚ
  time_to_expiry : ℚ
deriving DecidableEq

/-- Embeds the HedgeParams dataclass of src/models.py. -/
structure HedgeParams where
  hedge_amount : ℚ
  leverage : ℚ
  hedge_direction : HedgeDirection
  apply_fees : Bool
  fee_rate : ℚ
deriving DecidableEq

/-- Embeds calculate_expected_move (simulator.py lines 11 to 16).
The factor np.sqrt(time_days / 365) is supplied as sqrtTimeYears. -/
def calculate_expected_move (current_price iv sqrtTimeYears : ℚ) : ℚ :=
  current_price * iv * sqrtTimeYears

/-- Embeds calculate_probability_itm (simulator.py lines 18 to 43).
d2general stands for log(current_price / strike_price) divided by
(iv * sqrt(time_years)), the value computed on line 34 when the two
prices differ; normCdf stands for scipy stats.norm.cdf. -/
def calculate_probability_itm (current_price strike_price iv time_days : ℚ)
    (d2general : ℚ) (normCdf : ℚ → ℚ) (direction : Direction) : ℚ :=
  if time_days ≤ 0 then
    if (direction = Direction.up ∧ strike_price < current_price) ∨
        (direction = Direction.down ∧ current_price < strike_price) then 1 else 0
  else
    let d2 : ℚ := if current_price = strike_price then 0 else d2general
    let prob_up := normCdf d2
    match direction with
    | Direction.up => prob_up
    | Direction.down => 1 - prob_up

/-- Embeds np.linspace(start, stop, num) with endpoint inclusion: num
evenly spaced rationals from start to stop.  For num = 1 numpy returns
the singleton start; for num = 0 the empty array. -/
def linspace (start stop : ℚ) (num : ℕ) : List ℚ :=
  if num = 0 then []
  else if num = 1 then [start]
  else (List.range num).map
    (fun i : ℕ => start + (stop - start) * (i : ℚ) / ((num : ℚ) - 1))

/-- Embeds the max_move_pct derivation shared by generate_price_scenarios
(simulator.py line 58) and simulate_scenarios (line 153): the larger of
three expected moves and one and a half strike distances, as a fraction
of the current price.  Caution: rational division totalizes the two
quotients at current_price = 0 (x / 0 = 0 in ℚ) where the Python source
raises ZeroDivisionError on line 152, so this embedding is faithful only
for current_price ≠ 0; theorems about whole runs therefore carry that
hypothesis. -/
def gen_max_move_pct (current_price strike_price iv sqrtTimeYears : ℚ) : ℚ :=
  max (3 * (calculate_expected_move current_price iv sqrtTimeYears / current_price))
    ((|strike_price - current_price| / current_price) * 1.5)

/-- Embeds generate_price_scenarios (simulator.py lines 45 to 63):
linspace from minus max_move_pct to plus max_move_pct. -/
def generate_price_scenarios (current_price strike_price iv sqrtTimeYears : ℚ)
    (num_points : ℕ) : List ℚ :=
  linspace (-(gen_max_move_pct current_price strike_price iv sqrtTimeYears))
    (gen_max_move_pct current_price strike_price iv sqrtTimeYears) num_points

/-- Embeds calculate_binary_option_payout (simulator.py lines 65 to 73). -/
def calculate_binary_option_payout (params : BinaryOptionParams)
    (price_goes_up : Bool) : ℚ :=
  if price_goes_up then
    params.investment_amount * (params.payout_multiplier_up - 1)
  else
    params.investment_amount * (params.payout_multiplier_down - 1)

/-- The liquidated return value of calculate_hedge_pnl (simulator.py
lines 104 to 108 and 113 to 117): collateral plus the entry fee when
fees apply. -/
def liquidatedPnl (hedge : HedgeParams) : ℚ :=
  if hedge.apply_fees then
    -(hedge.hedge_amount + hedge.hedge_amount * hedge.leverage * hedge.fee_rate)
  else
    -hedge.hedge_amount

/-- The not-liquidated branch of calculate_hedge_pnl (simulator.py lines
119 to 130): raw leveraged pnl minus round-trip fees when fees apply. -/
def notLiquidatedPnl (hedge : HedgeParams) (price_change_pct : ℚ) : ℚ :=
  let raw_pnl :=
    match hedge.hedge_direction with
    | HedgeDirection.long => hedge.hedge_amount * hedge.leverage * price_change_pct
    | HedgeDirection.short => hedge.hedge_amount * hedge.leverage * (-price_change_pct)
  if hedge.apply_fees then
    raw_pnl - hedge.hedge_amount * hedge.leverage * hedge.fee_rate * 2
  else
    raw_pnl

/-- The liquidation point checked by calculate_hedge_pnl (simulator.py
lines 102 and 111): minus one over leverage for long, plus one over
leverage for short. -/
def liquidation_point (hedge : HedgeParams) : ℚ :=
  match hedge.hedge_direction with
  | HedgeDirection.long => -1 / hedge.leverage
  | HedgeDirection.short => 1 / hedge.leverage

/-- Embeds calculate_hedge_pnl (simulator.py lines 75 to 130).  The
unleveraged branch (leverage at most 1) is linear with round-trip fees;
the leveraged branch tests liquidation first and otherwise falls through
to the not-liquidated formula. -/
def calculate_hedge_pnl (hedge : HedgeParams) (price_change_pct : ℚ) : ℚ :=
  if hedge.leverage ≤ 1 then
    let pnl :=
      match hedge.hedge_direction with
      | HedgeDirection.long => hedge.hedge_amount * price_change_pct
      | HedgeDirection.short => hedge.hedge_amount * (-price_change_pct)
    if hedge.apply_fees then
      pnl - hedge.hedge_amount * hedge.leverage * hedge.fee_rate * 2
    else
      pnl
  else
    match hedge.hedge_direction with
    | HedgeDirection.long =>
        if price_change_pct ≤ -1 / hedge.leverage then liquidatedPnl hedge
        else notLiquidatedPnl hedge price_change_pct
    | HedgeDirection.short =>
        if 1 / hedge.leverage ≤ price_change_pct then liquidatedPnl hedge
        else notLiquidatedPnl hedge price_change_pct

/-- Entry fee as the claims define it: hedge_amount times leverage times
fee_rate when fees apply, zero otherwise.  Named from the spec wording to
state the loss-floor claims against the code. -/
def entry_fee (hedge : HedgeParams) : ℚ :=
  if hedge.apply_fees then hedge.hedge_amount * hedge.leverage * hedge.fee_rate else 0

/-- Embeds np.max over a nonempty array (simulator.py line 208).  On the
empty list, where numpy raises ValueError, it returns 0; the claims only
use it on nonempty grids. -/
def npMax : List ℚ → ℚ
  | [] => 0
  | x :: xs => xs.foldl max x

/-- Embeds np.min over a nonempty array (simulator.py line 209), with the
same empty-list convention as npMax. -/
def npMin : List ℚ → ℚ
  | [] => 0
  | x :: xs => xs.foldl min x

/-- Tail of the argmin scan: keeps the first index attaining the least
absolute distance to the target, updating only on a strict decrease,
exactly as np.argmin keeps the first occurrence of the minimum. -/
def argminAbsGo (target : ℚ) : List ℚ → ℚ → ℕ → ℕ → ℕ
  | [], _, bestIdx, _ => bestIdx
  | x :: xs, bestVal, bestIdx, curIdx =>
      if |x - target| < bestVal then
        argminAbsGo target xs (|x - target|) curIdx (curIdx + 1)
      else
        argminAbsGo target xs bestVal bestIdx (curIdx + 1)

/-- Embeds np.argmin(np.abs(l minus target)) (simulator.py lines 230 and
231): index of the first element of l nearest to target, 0 on the empty
list. -/
def argminAbs (l : List ℚ) (target : ℚ) : ℕ :=
  match l with
  | [] => 0
  | x :: xs => argminAbsGo target xs (|x - target|) 0 1

/-- The linear interpolation of the break-even scan (simulator.py lines
217 and 218). -/
def interpBE (x1 x2 y1 y2 : ℚ) : ℚ :=
  x1 + (x2 - x1) * (-y1 / (y2 - y1))

/-- The zero-crossing test of the break-even scan (simulator.py lines 214
and 215). -/
def crossesZero (y1 y2 : ℚ) : Prop :=
  (y1 ≤ 0 ∧ 0 < y2) ∨ (0 ≤ y1 ∧ y2 < 0)

instance (y1 y2 : ℚ) : Decidable (crossesZero y1 y2) := by
  unfold crossesZero
  infer_instance

/-- Walks consecutive pairs of (price change, total pnl), emitting an
interpolated break-even at each zero crossing, exactly as the loop on
simulator.py lines 213 to 219. -/
def breakEvensGo : ℚ × ℚ → List (ℚ × ℚ) → List ℚ
  | _, [] => []
  | (x1, y1), (x2, y2) :: rest =>
      (if crossesZero y1 y2 then [interpBE x1 x2 y1 y2] else []) ++
        breakEvensGo (x2, y2) rest

/-- Embeds the break-even detection of simulate_scenarios (simulator.py
lines 212 to 219) over the paired grid and total pnl lists. -/
def breakEvens (xs ys : List ℚ) : List ℚ :=
  match xs.zip ys with
  | [] => []
  | p :: rest => breakEvensGo p rest

/-- The per-grid-point binary pnl of the scenario loop (simulator.py
lines 177 to 194): the bet wins when the realized price is strictly
above the strike and the bet is up, or not strictly above and the bet is
down; winning pays the payout for the bet direction, losing forfeits the
investment. -/
def binaryPnlAt (bp : BinaryOptionParams) (binary_direction : Direction)
    (price_change : ℚ) : ℚ :=
  let actual_price := bp.current_price * (1 + price_change)
  if (binary_direction = Direction.up ∧ bp.strike_price < actual_price) ∨
      (binary_direction = Direction.down ∧ ¬ bp.strike_price < actual_price) then
    if binary_direction = Direction.up then
      calculate_binary_option_payout bp true
    else
      calculate_binary_option_payout bp false
  else
    -bp.investment_amount

/-- The max_move_pct used by simulate_scenarios (simulator.py lines 152
to 158): the generate_price_scenarios derivation, extended by one and a
half liquidation distances when leveraged. -/
def simulate_max_move_pct (bp : BinaryOptionParams) (hp : HedgeParams)
    (sqrtTimeYears : ℚ) : ℚ :=
  let base := gen_max_move_pct bp.current_price bp.strike_price
    bp.implied_volatility sqrtTimeYears
  if 1 < hp.leverage then max base (1.5 / hp.leverage) else base

/-- The grid generated inside simulate_scenarios (simulator.py line
161). -/
def sim_grid (bp : BinaryOptionParams) (hp : HedgeParams) (sqrtTimeYears : ℚ)
    (num_points : ℕ) : List ℚ :=
  linspace (-(simulate_max_move_pct bp hp sqrtTimeYears))
    (simulate_max_move_pct bp hp sqrtTimeYears) num_points

/-- The per-point total pnl list of the scenario loop (simulator.py lines
176 to 204): binary pnl plus hedge pnl at each grid point. -/
def sim_total_pnl (bp : BinaryOptionParams) (hp : HedgeParams)
    (binary_direction : Direction) (sqrtTimeYears : ℚ) (num_points : ℕ) : List ℚ :=
  (sim_grid bp hp sqrtTimeYears num_points).map
    (fun pc => binaryPnlAt bp binary_direction pc + calculate_hedge_pnl hp pc)

/-- The expected move as a fraction of the current price (simulator.py
line 227). -/
def expected_move_pct (bp : BinaryOptionParams) (sqrtTimeYears : ℚ) : ℚ :=
  calculate_expected_move bp.current_price bp.implied_volatility sqrtTimeYears /
    bp.current_price

/-- Grid index nearest plus expected_move_pct (simulator.py line 230). -/
def sim_up_idx (bp : BinaryOptionParams) (hp : HedgeParams) (sqrtTimeYears : ℚ)
    (num_points : ℕ) : ℕ :=
  argminAbs (sim_grid bp hp sqrtTimeYears num_points) (expected_move_pct bp sqrtTimeYears)

/-- Grid index nearest minus expected_move_pct (simulator.py line 231). -/
def sim_down_idx (bp : BinaryOptionParams) (hp : HedgeParams) (sqrtTimeYears : ℚ)
    (num_points : ℕ) : ℕ :=
  argminAbs (sim_grid bp hp sqrtTimeYears num_points) (-(expected_move_pct bp sqrtTimeYears))

/-- The total pnl at the grid index nearest plus expected_move_pct. -/
def sim_pnl_up (bp : BinaryOptionParams) (hp : HedgeParams)
    (binary_direction : Direction) (sqrtTimeYears : ℚ) (num_points : ℕ) : ℚ :=
  (sim_total_pnl bp hp binary_direction sqrtTimeYears num_points).getD
    (sim_up_idx bp hp sqrtTimeYears num_points) 0

/-- The total pnl at the grid index nearest minus expected_move_pct. -/
def sim_pnl_down (bp : BinaryOptionParams) (hp : HedgeParams)
    (binary_direction : Direction) (sqrtTimeYears : ℚ) (num_points : ℕ) : ℚ :=
  (sim_total_pnl bp hp binary_direction sqrtTimeYears num_points).getD
    (sim_down_idx bp hp sqrtTimeYears num_points) 0

/-- Embeds the results dictionary assembled at the end of
simulate_scenarios (simulator.py lines 250 to 271). -/
structure SimulationResult where
  price_changes : List ℚ
  total_pnl : List ℚ
  binary_pnl : List ℚ
  hedge_pnl : List ℚ
  max_profit : ℚ
  max_loss : ℚ
  break_even_points : List ℚ
  expected_value : ℚ
  current_price : ℚ
  strike_price : ℚ
  realistic_probability : ℚ
  expected_move : ℚ
  implied_volatility : ℚ
  time_to_expiry : ℚ
  liquidation_long : Option ℚ
  liquidation_short : Option ℚ
  leverage : ℚ
  hedge_direction : HedgeDirection
  apply_fees : Bool
  fee_rate : ℚ
deriving DecidableEq

/-- Embeds simulate_scenarios (simulator.py lines 132 to 273).  The
probability_up field of the option parameters is never read by the body,
mirroring the source.  sqrtTimeYears, d2general and normCdf abstract the
transcendental sub-computations as described at the top of the file. -/
def simulate_scenarios (bp : BinaryOptionParams) (hp : HedgeParams)
    (binary_direction : Direction) (num_points : ℕ)
    (sqrtTimeYears d2general : ℚ) (normCdf : ℚ → ℚ) : SimulationResult :=
  let expected_move := calculate_expected_move bp.current_price
    bp.implied_volatility sqrtTimeYears
  let price_changes := sim_grid bp hp sqrtTimeYears num_points
  let realistic_prob := calculate_probability_itm bp.current_price bp.strike_price
    bp.implied_volatility bp.time_to_expiry d2general normCdf binary_direction
  let binary_pnl := price_changes.map (binaryPnlAt bp binary_direction)
  let hedge_pnl := price_changes.map (calculate_hedge_pnl hp)
  let total_pnl := sim_total_pnl bp hp binary_direction sqrtTimeYears num_points
  let break_even_points := breakEvens price_changes total_pnl
  let expected_value := realistic_prob *
      sim_pnl_up bp hp binary_direction sqrtTimeYears num_points +
    (1 - realistic_prob) * sim_pnl_down bp hp binary_direction sqrtTimeYears num_points
  let liquidation_long : Option ℚ :=
    if 1 < hp.leverage ∧ hp.hedge_direction = HedgeDirection.long then
      some ((-100 / hp.leverage) / 100)
    else
      none
  let liquidation_short : Option ℚ :=
    if 1 < hp.leverage ∧ hp.hedge_direction = HedgeDirection.short then
      some (-(-100 / hp.leverage) / 100)
    else
      none
  { price_changes := price_changes
    total_pnl := total_pnl
    binary_pnl := binary_pnl
    hedge_pnl := hedge_pnl
    max_profit := npMax total_pnl
    max_loss := npMin total_pnl
    break_even_points := break_even_points
    expected_value := expected_value
    current_price := bp.current_price
    strike_price := bp.strike_price
    realistic_probability := realistic_prob
    expected_move := expected_move
    implied_volatility := bp.implied_volatility
    time_to_expiry := bp.time_to_expiry
    liquidation_long := liquidation_long
    liquidation_short := liquidation_short
    leverage := hp.leverage
    hedge_direction := hp.hedge_direction
    apply_fees := hp.apply_fees
    fee_rate := hp.fee_rate }

/-! Helper lemmas shared by several claims. -/

/-- Closed form of the linspace entries for at least two points. -/
theorem linspace_getD (start stop : ℚ) (num i : ℕ) (hnum : 2 ≤ num) (hi : i < num) :
    (linspace start stop num).getD i 0 =
      start + (stop - start) * i / ((num : ℚ) - 1) := by
  have h0 : ¬ num = 0 := by omega
  have h1 : ¬ num = 1 := by omega
  simp only [linspace, h0, h1, if_false]
  rw [List.getD_eq_getElem?_getD, List.getElem?_map, List.getElem?_range hi]
  rfl

/-- The probability estimate always lies in the unit interval, provided
the abstract normal CDF does. -/
theorem prob_itm_unit_interval (cp sp iv t d2g : ℚ) (Φ : ℚ → ℚ)
    (hΦ : ∀ x, 0 ≤ Φ x ∧ Φ x ≤ 1) (dir : Direction) :
    0 ≤ calculate_probability_itm cp sp iv t d2g Φ dir ∧
      calculate_probability_itm cp sp iv t d2g Φ dir ≤ 1 := by
  cases dir with
  | up =>
    simp only [calculate_probability_itm]
    split_ifs with h1 h2 h3
    · norm_num
    · norm_num
    · exact hΦ 0
    · exact hΦ d2g
  | down =>
    simp only [calculate_probability_itm]
    split_ifs with h1 h2 h3
    · norm_num
    · norm_num
    · constructor <;> linarith [(hΦ 0).1, (hΦ 0).2]
    · constructor <;> linarith [(hΦ d2g).1, (hΦ d2g).2]

/-- C6: with non-positive time to expiry the probability estimator is
deterministic: 1 when the bet is up and price is strictly above strike,
or the bet is down and price is strictly below strike; 0 otherwise, and
in particular 0 for both directions when price equals strike. -/
theorem c6_expiry_probability_deterministic (cp sp iv t d2g : ℚ) (Φ : ℚ → ℚ)
    (dir : Direction) (ht : t ≤ 0) :
    (calculate_probability_itm cp sp iv t d2g Φ dir =
      if (dir = Direction.up ∧ sp < cp) ∨ (dir = Direction.down ∧ cp < sp)
      then 1 else 0) ∧
    (cp = sp →
      calculate_probability_itm cp sp iv t d2g Φ Direction.up = 0 ∧
      calculate_probability_itm cp sp iv t d2g Φ Direction.down = 0) := by
  constructor
  · simp [calculate_probability_itm, ht]
  · intro h
    subst h
    simp [calculate_probability_itm, ht]

/-- Witness for C6 at time 0 with current price 120 above strike 100: an
up bet is surely in the money. -/
theorem c6_expiry_probability_deterministic_witness :
    calculate_probability_itm 120 100 1 0 0 (fun x => x) Direction.up =
      (if (Direction.up = Direction.up ∧ (100:ℚ) < 120) ∨
          (Direction.up = Direction.down ∧ (120:ℚ) < 100) then (1:ℚ) else 0) ∧
    calculate_probability_itm 120 100 1 0 0 (fun x => x) Direction.up = 1 :=
  ⟨(c6_expiry_probability_deterministic 120 100 1 0 0 (fun x => x) Direction.up
      (by norm_num)).1,
    by decide⟩

/-- C9: a leveraged long hedge without fees loses exactly the collateral
at or beyond the liquidation point, however far the price falls. -/
theorem c9_liquidated_long_collateral_floor (hedge : HedgeParams) (pc : ℚ)
    (hdir : hedge.hedge_direction = HedgeDirection.long)
    (hfee : hedge.apply_fees = false) (hl : 1 < hedge.leverage)
    (hpc : pc ≤ -1 / hedge.leverage) :
    calculate_hedge_pnl hedge pc = -hedge.hedge_amount := by
  have hnot : ¬ hedge.leverage ≤ 1 := not_le.mpr hl
  simp [calculate_hedge_pnl, liquidatedPnl, hnot, hdir, hfee, hpc]

/-- Witness for C9: hedge amount 500, leverage 10, long, fees disabled;
price changes of minus 15 percent and minus 50 percent both return
exactly minus 500. -/
theorem c9_liquidated_long_collateral_floor_witness :
    calculate_hedge_pnl ⟨500, 10, HedgeDirection.long, false, 0⟩ (-15/100) = -500 ∧
    calculate_hedge_pnl ⟨500, 10, HedgeDirection.long, false, 0⟩ (-1/2) = -500 :=
  ⟨c9_liquidated_long_collateral_floor ⟨500, 10, HedgeDirection.long, false, 0⟩
      (-15/100) rfl rfl (by norm_num) (by norm_num),
    c9_liquidated_long_collateral_floor ⟨500, 10, HedgeDirection.long, false, 0⟩
      (-1/2) rfl rfl (by norm_num) (by norm_num)⟩

/-- C10: whenever the zero-crossing predicate of the break-even scan
holds for a consecutive pair, the interpolation denominator is nonzero
and the interpolated break-even lies between the two bracketing grid
points. -/
theorem c10_breakeven_interpolation_safe (x1 x2 y1 y2 : ℚ)
    (hcross : crossesZero y1 y2) (hx : x1 ≤ x2) :
    y2 - y1 ≠ 0 ∧ x1 ≤ interpBE x1 x2 y1 y2 ∧ interpBE x1 x2 y1 y2 ≤ x2 := by
  unfold crossesZero at hcross
  unfold interpBE
  rcases hcross with ⟨h1, h2⟩ | ⟨h1, h2⟩
  · have hd : 0 < y2 - y1 := by linarith
    have ht0 : 0 ≤ -y1 / (y2 - y1) := div_nonneg (by linarith) hd.le
    have ht1 : -y1 / (y2 - y1) ≤ 1 := (div_le_one hd).mpr (by linarith)
    refine ⟨ne_of_gt hd, ?_, ?_⟩
    · nlinarith [mul_nonneg (sub_nonneg.mpr hx) ht0]
    · nlinarith [mul_le_mul_of_nonneg_left ht1 (sub_nonneg.mpr hx)]
  · have hd : y2 - y1 < 0 := by linarith
    have hd2 : 0 < y1 - y2 := by linarith
    have e : -y1 / (y2 - y1) = y1 / (y1 - y2) := by
      rw [div_eq_div_iff hd.ne hd2.ne']
      ring
    rw [e]
    have ht0 : 0 ≤ y1 / (y1 - y2) := div_nonneg h1 hd2.le
    have ht1 : y1 / (y1 - y2) ≤ 1 := (div_le_one hd2).mpr (by linarith)
    refine ⟨ne_of_lt hd, ?_, ?_⟩
    · nlinarith [mul_nonneg (sub_nonneg.mpr hx) ht0]
    · nlinarith [mul_le_mul_of_nonneg_left ht1 (sub_nonneg.mpr hx)]

/-- Witness for C10 at the crossing of the spec example: pnl minus 10
then plus 10 over the grid pair minus 0.1 and plus 0.1; the interpolated
break-even is exactly 0 and lies in the bracket. -/
theorem c10_breakeven_interpolation_safe_witness :
    ((-1/10 : ℚ) ≤ interpBE (-1/10) (1/10) (-10) 10 ∧
      interpBE (-1/10) (1/10) (-10) 10 ≤ 1/10) ∧
    interpBE (-1/10) (1/10) (-10) 10 = 0 :=
  ⟨⟨(c10_breakeven_interpolation_safe (-1/10) (1/10) (-10) 10
        (Or.inl ⟨by norm_num, by norm_num⟩) (by norm_num)).2.1,
      (c10_breakeven_interpolation_safe (-1/10) (1/10) (-10) 10
        (Or.inl ⟨by norm_num, by norm_num⟩) (by norm_num)).2.2⟩,
    by norm_num [interpBE]⟩

/-- Shape of the symmetric linspace grid used by the scenario
generation: weakly increasing, endpoints at minus m and plus m,
pointwise symmetric about zero, and strictly increasing when m is
positive. -/
theorem linspace_sym_props (m : ℚ) (N : ℕ) (hm : 0 ≤ m) (hN : 2 ≤ N) :
    (∀ i j, i ≤ j → j < N →
      (linspace (-m) m N).getD i 0 ≤ (linspace (-m) m N).getD j 0) ∧
    (linspace (-m) m N).getD 0 0 = -m ∧
    (linspace (-m) m N).getD (N - 1) 0 = m ∧
    (∀ i, i < N →
      (linspace (-m) m N).getD i 0 = -((linspace (-m) m N).getD (N - 1 - i) 0)) ∧
    (0 < m → ∀ i j, i < j → j < N →
      (linspace (-m) m N).getD i 0 < (linspace (-m) m N).getD j 0) := by
  have hd : (0:ℚ) < (N:ℚ) - 1 := by
    have h2 : (2:ℚ) ≤ (N:ℚ) := by exact_mod_cast hN
    linarith
  have F : ∀ i, i < N → (linspace (-m) m N).getD i 0 =
      -m + (m - -m) * (i:ℚ) / ((N:ℚ) - 1) :=
    fun i hi => linspace_getD (-m) m N i hN hi
  refine ⟨?_, ?_, ?_, ?_, ?_⟩
  · intro i j hij hj
    rw [F i (lt_of_le_of_lt hij hj), F j hj]
    have hcij : (i:ℚ) ≤ (j:ℚ) := by exact_mod_cast hij
    have hinv : (0:ℚ) ≤ ((N:ℚ) - 1)⁻¹ := inv_nonneg.mpr hd.le
    rw [div_eq_mul_inv, div_eq_mul_inv]
    exact add_le_add_left
      (mul_le_mul_of_nonneg_right
        (mul_le_mul_of_nonneg_left hcij (by linarith)) hinv) _
  · rw [F 0 (by omega)]
    norm_num
  · rw [F (N - 1) (by omega), Nat.cast_sub (by omega : 1 ≤ N), Nat.cast_one,
      mul_div_assoc, div_self hd.ne']
    ring
  · intro i hi
    rw [F i hi, F (N - 1 - i) (by omega), Nat.cast_sub (by omega : i ≤ N - 1),
      Nat.cast_sub (by omega : 1 ≤ N), Nat.cast_one]
    field_simp
    ring
  · intro hm0 i j hij hj
    rw [F i (lt_trans hij hj), F j hj]
    have hcij : (i:ℚ) < (j:ℚ) := by exact_mod_cast hij
    have hinv : (0:ℚ) < ((N:ℚ) - 1)⁻¹ := inv_pos.mpr hd
    rw [div_eq_mul_inv, div_eq_mul_inv]
    exact add_lt_add_left
      (mul_lt_mul_of_pos_right
        (mul_lt_mul_of_pos_left hcij (by linarith)) hinv) _

/-- C5: for a positive current price and at least two points, the
generated grid is monotonically increasing (strictly so whenever the
half-width is positive), has the endpoints minus max_move_pct and plus
max_move_pct, and is index-symmetric about zero. -/
theorem c5_generated_grid_shape (cp sp iv sty : ℚ) (N : ℕ)
    (hcp : 0 < cp) (hN : 2 ≤ N) :
    (∀ i j, i ≤ j → j < N →
      (generate_price_scenarios cp sp iv sty N).getD i 0 ≤
        (generate_price_scenarios cp sp iv sty N).getD j 0) ∧
    (generate_price_scenarios cp sp iv sty N).getD 0 0 =
      -(gen_max_move_pct cp sp iv sty) ∧
    (generate_price_scenarios cp sp iv sty N).getD (N - 1) 0 =
      gen_max_move_pct cp sp iv sty ∧
    (∀ i, i < N →
      (generate_price_scenarios cp sp iv sty N).getD i 0 =
        -((generate_price_scenarios cp sp iv sty N).getD (N - 1 - i) 0)) ∧
    (0 < gen_max_move_pct cp sp iv sty → ∀ i j, i < j → j < N →
      (generate_price_scenarios cp sp iv sty N).getD i 0 <
        (generate_price_scenarios cp sp iv sty N).getD j 0) := by
  have hb : 0 ≤ (|sp - cp| / cp) * 1.5 := by positivity
  have hm : 0 ≤ gen_max_move_pct cp sp iv sty :=
    le_trans hb (le_max_right _ _)
  exact linspace_sym_props (gen_max_move_pct cp sp iv sty) N hm hN

/-- Witness for C5 on a concrete grid: current price 100, strike 110,
no expected move, four points; the last point is the half-width, which
evaluates to 3 over 20. -/
theorem c5_generated_grid_shape_witness :
    (generate_price_scenarios 100 110 1 0 4).getD (4 - 1) 0 =
      gen_max_move_pct 100 110 1 0 ∧
    gen_max_move_pct 100 110 1 0 = 3/20 :=
  ⟨(c5_generated_grid_shape 100 110 1 0 4 (by norm_num) (by norm_num)).2.2.1,
    by norm_num [gen_max_move_pct, calculate_expected_move, max_def, abs_of_nonneg]⟩

/-- C4: with leverage above 1 the simulation grid half-width is the
three-way maximum including one and a half liquidation distances, so
the liquidation boundary at one over leverage lies strictly inside the
grid range on both sides. -/
theorem c4_liquidation_inside_grid (bp : BinaryOptionParams) (hp : HedgeParams)
    (sty : ℚ) (hl : 1 < hp.leverage) :
    simulate_max_move_pct bp hp sty =
      max (gen_max_move_pct bp.current_price bp.strike_price bp.implied_volatility sty)
        (1.5 / hp.leverage) ∧
    1 / hp.leverage < simulate_max_move_pct bp hp sty ∧
    -(simulate_max_move_pct bp hp sty) < -(1 / hp.leverage) := by
  have hL0 : (0:ℚ) < hp.leverage := lt_trans one_pos hl
  have heq : simulate_max_move_pct bp hp sty =
      max (gen_max_move_pct bp.current_price bp.strike_price bp.implied_volatility sty)
        (1.5 / hp.leverage) := by
    simp only [simulate_max_move_pct]
    rw [if_pos hl]
  have h15 : 1 / hp.leverage < 1.5 / hp.leverage := by
    rw [div_lt_div_iff_of_pos_right hL0]
    norm_num
  have h2 : 1 / hp.leverage < simulate_max_move_pct bp hp sty := by
    rw [heq]
    exact lt_of_lt_of_le h15 (le_max_right _ _)
  exact ⟨heq, h2, neg_lt_neg h2⟩

/-- Witness for C4: leverage 10 with a zero expected move and strike 10
percent away gives half-width 3 over 20, strictly beyond the
liquidation distance 1 over 10. -/
theorem c4_liquidation_inside_grid_witness :
    1 / (10:ℚ) < simulate_max_move_pct ⟨100, 110, 8/5, 6/5, 1000, 1/2, 3/10, 7⟩
      ⟨500, 10, HedgeDirection.long, false, 0⟩ 0 ∧
    simulate_max_move_pct ⟨100, 110, 8/5, 6/5, 1000, 1/2, 3/10, 7⟩
      ⟨500, 10, HedgeDirection.long, false, 0⟩ 0 = 3/20 :=
  ⟨(c4_liquidation_inside_grid ⟨100, 110, 8/5, 6/5, 1000, 1/2, 3/10, 7⟩
      ⟨500, 10, HedgeDirection.long, false, 0⟩ 0 (by norm_num)).2.1,
    by norm_num [simulate_max_move_pct, gen_max_move_pct, calculate_expected_move,
      max_def, abs_of_nonneg]⟩

/-- C1 counterexample: the claimed loss floor minus hedge_amount plus
entry fee fails twice on the code.  With leverage 1 (allowed by the
claim) the unleveraged branch is linear: hedge 100 long at price change
minus 200 percent returns minus 200, below the floor minus 100.  With
leverage 10 and fees on, just before liquidation the round-trip fee is
charged: hedge 100, fee rate 1 percent, price change minus 9.9 percent
returns minus 119, below the claimed floor minus 110. -/
theorem c1_loss_floor_counterexample :
    (calculate_hedge_pnl ⟨100, 1, HedgeDirection.long, false, 0⟩ (-2) = -200 ∧
      calculate_hedge_pnl ⟨100, 1, HedgeDirection.long, false, 0⟩ (-2) <
        -(100 + entry_fee ⟨100, 1, HedgeDirection.long, false, 0⟩)) ∧
    (calculate_hedge_pnl ⟨100, 10, HedgeDirection.long, true, 1/100⟩ (-99/1000) = -119 ∧
      calculate_hedge_pnl ⟨100, 10, HedgeDirection.long, true, 1/100⟩ (-99/1000) <
        -(100 + entry_fee ⟨100, 10, HedgeDirection.long, true, 1/100⟩)) := by
  norm_num [calculate_hedge_pnl, entry_fee, liquidatedPnl, notLiquidatedPnl]

/-- C1 amended: for leverage strictly above 1, nonnegative collateral
and nonnegative fee rate, the hedge P&L is bounded below by minus
(hedge_amount + 2 times entry_fee); the factor 2 accounts for the
round-trip fee charged in the not-liquidated branch. -/
theorem c1_amended_loss_floor (hedge : HedgeParams) (pc : ℚ)
    (hh : 0 ≤ hedge.hedge_amount) (hl : 1 < hedge.leverage)
    (hf : 0 ≤ hedge.fee_rate) :
    -(hedge.hedge_amount + 2 * entry_fee hedge) ≤ calculate_hedge_pnl hedge pc := by
  have hL0 : (0:ℚ) < hedge.leverage := lt_trans one_pos hl
  have hnot : ¬ hedge.leverage ≤ 1 := not_le.mpr hl
  have hef : 0 ≤ hedge.hedge_amount * hedge.leverage * hedge.fee_rate := by positivity
  cases hdir : hedge.hedge_direction with
  | long =>
    simp only [calculate_hedge_pnl, entry_fee, liquidatedPnl, notLiquidatedPnl,
      hnot, if_false, hdir]
    split_ifs with hfe hliq hliq
    · linarith
    · have key := (div_lt_iff₀ hL0).mp (not_le.mp hliq)
      nlinarith [mul_le_mul_of_nonneg_left key.le hh]
    · linarith
    · have key := (div_lt_iff₀ hL0).mp (not_le.mp hliq)
      nlinarith [mul_le_mul_of_nonneg_left key.le hh]
  | short =>
    simp only [calculate_hedge_pnl, entry_fee, liquidatedPnl, notLiquidatedPnl,
      hnot, if_false, hdir]
    split_ifs with hfe hliq hliq
    · linarith
    · have key := (lt_div_iff₀ hL0).mp (not_le.mp hliq)
      nlinarith [mul_le_mul_of_nonneg_left key.le hh]
    · linarith
    · have key := (lt_div_iff₀ hL0).mp (not_le.mp hliq)
      nlinarith [mul_le_mul_of_nonneg_left key.le hh]

/-- Witness for the amended C1 at hedge 50, leverage 2, fees on at 10
percent: the floor minus (50 + 2 times 10) holds at price change 7. -/
theorem c1_amended_loss_floor_witness :
    -((50:ℚ) + 2 * entry_fee ⟨50, 2, HedgeDirection.long, true, 1/10⟩) ≤
      calculate_hedge_pnl ⟨50, 2, HedgeDirection.long, true, 1/10⟩ 7 :=
  c1_amended_loss_floor ⟨50, 2, HedgeDirection.long, true, 1/10⟩ 7
    (by norm_num) (by norm_num) (by norm_num)

/-- C3 counterexample: with fees applied the claim fails.  Hedge 200 at
leverage 5 with fee rate 2 percent: the not-liquidated branch formula is
affine in the price change, so its limit at the liquidation point equals
its value there, minus 240; the claimed limit, the liquidated value
minus (hedge_amount + entry_fee), is minus 220.  Just before the
liquidation point the code in fact returns less than the liquidated
value (minus 239 at price change minus 19.9 percent). -/
theorem c3_liquidation_continuity_counterexample :
    notLiquidatedPnl ⟨200, 5, HedgeDirection.long, true, 1/50⟩
        (liquidation_point ⟨200, 5, HedgeDirection.long, true, 1/50⟩) = -240 ∧
    liquidatedPnl ⟨200, 5, HedgeDirection.long, true, 1/50⟩ = -220 ∧
    notLiquidatedPnl ⟨200, 5, HedgeDirection.long, true, 1/50⟩
        (liquidation_point ⟨200, 5, HedgeDirection.long, true, 1/50⟩) ≠
      liquidatedPnl ⟨200, 5, HedgeDirection.long, true, 1/50⟩ ∧
    calculate_hedge_pnl ⟨200, 5, HedgeDirection.long, true, 1/50⟩ (-199/1000) <
      liquidatedPnl ⟨200, 5, HedgeDirection.long, true, 1/50⟩ := by
  norm_num [calculate_hedge_pnl, notLiquidatedPnl, liquidatedPnl, liquidation_point]

/-- C3 amended: with fees disabled the hedge P&L is continuous at the
liquidation boundary: the not-liquidated branch formula evaluated at the
liquidation point equals the liquidated value minus hedge_amount, and
the branch formula is epsilon-delta continuous there. -/
theorem c3_amended_liquidation_continuity (hedge : HedgeParams)
    (hfee : hedge.apply_fees = false) (hl : 1 < hedge.leverage)
    (hh : 0 ≤ hedge.hedge_amount) :
    notLiquidatedPnl hedge (liquidation_point hedge) = liquidatedPnl hedge ∧
    ∀ ε : ℚ, 0 < ε → ∃ δ : ℚ, 0 < δ ∧ ∀ pc : ℚ,
      |pc - liquidation_point hedge| < δ →
      |notLiquidatedPnl hedge pc - liquidatedPnl hedge| < ε := by
  have hL0 : (0:ℚ) < hedge.leverage := lt_trans one_pos hl
  have hHL : 0 ≤ hedge.hedge_amount * hedge.leverage := by positivity
  cases hdir : hedge.hedge_direction with
  | long =>
    simp only [notLiquidatedPnl, liquidatedPnl, liquidation_point, hdir, hfee,
      Bool.false_eq_true, if_false]
    constructor
    · field_simp
    · intro ε hε
      refine ⟨ε / (hedge.hedge_amount * hedge.leverage + 1), by positivity, ?_⟩
      intro pc hpc
      have e1 : hedge.hedge_amount * hedge.leverage * pc - -hedge.hedge_amount =
          (hedge.hedge_amount * hedge.leverage) * (pc - -1 / hedge.leverage) := by
        field_simp
        ring
      rw [e1, abs_mul, abs_of_nonneg hHL]
      have h2 : (hedge.hedge_amount * hedge.leverage) *
          (ε / (hedge.hedge_amount * hedge.leverage + 1)) < ε := by
        rw [mul_div_assoc', div_lt_iff₀ (by positivity)]
        nlinarith
      exact lt_of_le_of_lt (mul_le_mul_of_nonneg_left hpc.le hHL) h2
  | short =>
    simp only [notLiquidatedPnl, liquidatedPnl, liquidation_point, hdir, hfee,
      Bool.false_eq_true, if_false]
    constructor
    · field_simp
    · intro ε hε
      refine ⟨ε / (hedge.hedge_amount * hedge.leverage + 1), by positivity, ?_⟩
      intro pc hpc
      have e1 : hedge.hedge_amount * hedge.leverage * (-pc) - -hedge.hedge_amount =
          (hedge.hedge_amount * hedge.leverage) * (1 / hedge.leverage - pc) := by
        field_simp
        ring
      rw [e1, abs_mul, abs_of_nonneg hHL, abs_sub_comm]
      have h2 : (hedge.hedge_amount * hedge.leverage) *
          (ε / (hedge.hedge_amount * hedge.leverage + 1)) < ε := by
        rw [mul_div_assoc', div_lt_iff₀ (by positivity)]
        nlinarith
      exact lt_of_le_of_lt (mul_le_mul_of_nonneg_left hpc.le hHL) h2

/-- Witness for the amended C3: hedge 300 at leverage 4 without fees;
the not-liquidated formula at the liquidation point equals the
liquidated value, namely minus 300. -/
theorem c3_amended_liquidation_continuity_witness :
    notLiquidatedPnl ⟨300, 4, HedgeDirection.long, false, 0⟩
        (liquidation_point ⟨300, 4, HedgeDirection.long, false, 0⟩) =
      liquidatedPnl ⟨300, 4, HedgeDirection.long, false, 0⟩ ∧
    liquidatedPnl ⟨300, 4, HedgeDirection.long, false, 0⟩ = -300 :=
  ⟨(c3_amended_liquidation_continuity ⟨300, 4, HedgeDirection.long, false, 0⟩
      rfl (by norm_num) (by norm_num)).1,
    by norm_num [liquidatedPnl]⟩

/-- C7: probability_up is dead input to the engine: two option parameter
records that agree on every field except probability_up produce
identical simulation results. -/
theorem c7_probability_up_noninterference (bp1 bp2 : BinaryOptionParams)
    (hp : HedgeParams) (dir : Direction) (N : ℕ) (sty d2g : ℚ) (Φ : ℚ → ℚ)
    (h1 : bp1.current_price = bp2.current_price)
    (h2 : bp1.strike_price = bp2.strike_price)
    (h3 : bp1.payout_multiplier_up = bp2.payout_multiplier_up)
    (h4 : bp1.payout_multiplier_down = bp2.payout_multiplier_down)
    (h5 : bp1.investment_amount = bp2.investment_amount)
    (h6 : bp1.implied_volatility = bp2.implied_volatility)
    (h7 : bp1.time_to_expiry = bp2.time_to_expiry) :
    simulate_scenarios bp1 hp dir N sty d2g Φ =
      simulate_scenarios bp2 hp dir N sty d2g Φ := by
  have e1 : simulate_scenarios bp1 hp dir N sty d2g Φ =
      simulate_scenarios ⟨bp1.current_price, bp1.strike_price,
        bp1.payout_multiplier_up, bp1.payout_multiplier_down,
        bp1.investment_amount, 0, bp1.implied_volatility,
        bp1.time_to_expiry⟩ hp dir N sty d2g Φ := rfl
  have e2 : simulate_scenarios bp2 hp dir N sty d2g Φ =
      simulate_scenarios ⟨bp2.current_price, bp2.strike_price,
        bp2.payout_multiplier_up, bp2.payout_multiplier_down,
        bp2.investment_amount, 0, bp2.implied_volatility,
        bp2.time_to_expiry⟩ hp dir N sty d2g Φ := rfl
  rw [e1, e2, h1, h2, h3, h4, h5, h6, h7]

/-- Witness for C7: probability_up 1 over 4 versus 3 over 4, all other
inputs equal, same result. -/
theorem c7_probability_up_noninterference_witness :
    simulate_scenarios ⟨100, 110, 8/5, 6/5, 1000, 1/4, 3/10, 7⟩
        ⟨500, 2, HedgeDirection.short, true, 1/1000⟩ Direction.down 3 1 1
        (fun x => x) =
      simulate_scenarios ⟨100, 110, 8/5, 6/5, 1000, 3/4, 3/10, 7⟩
        ⟨500, 2, HedgeDirection.short, true, 1/1000⟩ Direction.down 3 1 1
        (fun x => x) :=
  c7_probability_up_noninterference
    ⟨100, 110, 8/5, 6/5, 1000, 1/4, 3/10, 7⟩
    ⟨100, 110, 8/5, 6/5, 1000, 3/4, 3/10, 7⟩
    ⟨500, 2, HedgeDirection.short, true, 1/1000⟩ Direction.down 3 1 1
    (fun x => x) rfl rfl rfl rfl rfl rfl rfl

/-- C8 amended: expected_value is exactly the probability-weighted
average of the total pnl at the up and down indices, and lies in the
closed interval they span whenever the normal CDF stays in the unit
interval; strict betweenness fails in general (see the
counterexample). -/
theorem c8_amended_expected_value (bp : BinaryOptionParams) (hp : HedgeParams)
    (dir : Direction) (N : ℕ) (sty d2g : ℚ) (Φ : ℚ → ℚ)
    (hΦ : ∀ x, 0 ≤ Φ x ∧ Φ x ≤ 1) :
    (simulate_scenarios bp hp dir N sty d2g Φ).expected_value =
      (simulate_scenarios bp hp dir N sty d2g Φ).realistic_probability *
          sim_pnl_up bp hp dir sty N +
        (1 - (simulate_scenarios bp hp dir N sty d2g Φ).realistic_probability) *
          sim_pnl_down bp hp dir sty N ∧
    min (sim_pnl_up bp hp dir sty N) (sim_pnl_down bp hp dir sty N) ≤
      (simulate_scenarios bp hp dir N sty d2g Φ).expected_value ∧
    (simulate_scenarios bp hp dir N sty d2g Φ).expected_value ≤
      max (sim_pnl_up bp hp dir sty N) (sim_pnl_down bp hp dir sty N) := by
  have key : ∀ p a b : ℚ, 0 ≤ p → p ≤ 1 →
      min a b ≤ p * a + (1 - p) * b ∧ p * a + (1 - p) * b ≤ max a b := by
    intro p a b h0 h1
    constructor
    · nlinarith [mul_le_mul_of_nonneg_left (min_le_left a b) h0,
        mul_le_mul_of_nonneg_left (min_le_right a b)
          (by linarith : (0:ℚ) ≤ 1 - p)]
    · nlinarith [mul_le_mul_of_nonneg_left (le_max_left a b) h0,
        mul_le_mul_of_nonneg_left (le_max_right a b)
          (by linarith : (0:ℚ) ≤ 1 - p)]
  obtain ⟨hq0, hq1⟩ := prob_itm_unit_interval bp.current_price bp.strike_price
    bp.implied_volatility bp.time_to_expiry d2g Φ hΦ dir
  exact ⟨rfl,
    (key _ (sim_pnl_up bp hp dir sty N) (sim_pnl_down bp hp dir sty N) hq0 hq1).1,
    (key _ (sim_pnl_up bp hp dir sty N) (sim_pnl_down bp hp dir sty N) hq0 hq1).2⟩

/-- Witness for the amended C8 with a constant one-half CDF. -/
theorem c8_amended_expected_value_witness :
    min (sim_pnl_up ⟨100, 90, 8/5, 6/5, 1000, 1/2, 3/10, 365⟩
          ⟨500, 1, HedgeDirection.long, false, 0⟩ Direction.up 1 5)
        (sim_pnl_down ⟨100, 90, 8/5, 6/5, 1000, 1/2, 3/10, 365⟩
          ⟨500, 1, HedgeDirection.long, false, 0⟩ Direction.up 1 5) ≤
      (simulate_scenarios ⟨100, 90, 8/5, 6/5, 1000, 1/2, 3/10, 365⟩
        ⟨500, 1, HedgeDirection.long, false, 0⟩ Direction.up 5 1 0
        (fun _ => 1/2)).expected_value :=
  (c8_amended_expected_value ⟨100, 90, 8/5, 6/5, 1000, 1/2, 3/10, 365⟩
    ⟨500, 1, HedgeDirection.long, false, 0⟩ Direction.up 5 1 0 (fun _ => 1/2)
    (fun x => ⟨by norm_num, by norm_num⟩)).2.1


/-- Distinct bet directions are distinct. -/
theorem up_ne_down : Direction.up ≠ Direction.down := by decide

/-- Distinct bet directions are distinct, symmetric form. -/
theorem down_ne_up : Direction.down ≠ Direction.up := by decide

/-- C8 counterexample: at time to expiry 0 with the current price above
the strike, the probability is exactly 1 and the expected move is 0, so
both nearest indices coincide and expected_value equals the common total
pnl value minus 1075: it is not strictly between the up and down values,
which are equal.  All inputs are valid: positive prices, two grid
points, leverage 1, zero fee, and zero time with nonzero volatility. -/
theorem c8_strict_betweenness_counterexample :
    (simulate_scenarios ⟨100, 90, 8/5, 6/5, 1000, 1/2, 3/10, 0⟩
        ⟨500, 1, HedgeDirection.long, false, 0⟩ Direction.up 2 0 0
        (fun _ => 0)).expected_value = -1075 ∧
    sim_pnl_up ⟨100, 90, 8/5, 6/5, 1000, 1/2, 3/10, 0⟩
        ⟨500, 1, HedgeDirection.long, false, 0⟩ Direction.up 0 2 = -1075 ∧
    sim_pnl_down ⟨100, 90, 8/5, 6/5, 1000, 1/2, 3/10, 0⟩
        ⟨500, 1, HedgeDirection.long, false, 0⟩ Direction.up 0 2 = -1075 ∧
    ¬(sim_pnl_up ⟨100, 90, 8/5, 6/5, 1000, 1/2, 3/10, 0⟩
          ⟨500, 1, HedgeDirection.long, false, 0⟩ Direction.up 0 2 <
        (simulate_scenarios ⟨100, 90, 8/5, 6/5, 1000, 1/2, 3/10, 0⟩
          ⟨500, 1, HedgeDirection.long, false, 0⟩ Direction.up 2 0 0
          (fun _ => 0)).expected_value ∧
      (simulate_scenarios ⟨100, 90, 8/5, 6/5, 1000, 1/2, 3/10, 0⟩
          ⟨500, 1, HedgeDirection.long, false, 0⟩ Direction.up 2 0 0
          (fun _ => 0)).expected_value <
        sim_pnl_down ⟨100, 90, 8/5, 6/5, 1000, 1/2, 3/10, 0⟩
          ⟨500, 1, HedgeDirection.long, false, 0⟩ Direction.up 0 2) ∧
    ¬(sim_pnl_down ⟨100, 90, 8/5, 6/5, 1000, 1/2, 3/10, 0⟩
          ⟨500, 1, HedgeDirection.long, false, 0⟩ Direction.up 0 2 <
        (simulate_scenarios ⟨100, 90, 8/5, 6/5, 1000, 1/2, 3/10, 0⟩
          ⟨500, 1, HedgeDirection.long, false, 0⟩ Direction.up 2 0 0
          (fun _ => 0)).expected_value ∧
      (simulate_scenarios ⟨100, 90, 8/5, 6/5, 1000, 1/2, 3/10, 0⟩
          ⟨500, 1, HedgeDirection.long, false, 0⟩ Direction.up 2 0 0
          (fun _ => 0)).expected_value <
        sim_pnl_up ⟨100, 90, 8/5, 6/5, 1000, 1/2, 3/10, 0⟩
          ⟨500, 1, HedgeDirection.long, false, 0⟩ Direction.up 0 2) := by
  have hmm : simulate_max_move_pct ⟨100, 90, 8/5, 6/5, 1000, 1/2, 3/10, 0⟩
      ⟨500, 1, HedgeDirection.long, false, 0⟩ 0 = 3/20 := by
    norm_num [simulate_max_move_pct, gen_max_move_pct, calculate_expected_move,
      max_def, abs_of_nonpos, abs_of_nonneg]
  have hgrid : sim_grid ⟨100, 90, 8/5, 6/5, 1000, 1/2, 3/10, 0⟩
      ⟨500, 1, HedgeDirection.long, false, 0⟩ 0 2 = [-3/20, 3/20] := by
    rw [sim_grid, hmm]
    simp only [linspace]
    rw [show List.range 2 = [0, 1] from rfl]
    simp only [List.map_cons, List.map_nil]
    norm_num
  have htot : sim_total_pnl ⟨100, 90, 8/5, 6/5, 1000, 1/2, 3/10, 0⟩
      ⟨500, 1, HedgeDirection.long, false, 0⟩ Direction.up 0 2 = [-1075, 675] := by
    rw [sim_total_pnl, hgrid]
    norm_num [binaryPnlAt, calculate_binary_option_payout, calculate_hedge_pnl,
      up_ne_down, down_ne_up]
  have hupidx : sim_up_idx ⟨100, 90, 8/5, 6/5, 1000, 1/2, 3/10, 0⟩
      ⟨500, 1, HedgeDirection.long, false, 0⟩ 0 2 = 0 := by
    rw [sim_up_idx, hgrid]
    norm_num [argminAbs, argminAbsGo, expected_move_pct, calculate_expected_move,
      abs_of_nonpos, abs_of_nonneg]
  have hdownidx : sim_down_idx ⟨100, 90, 8/5, 6/5, 1000, 1/2, 3/10, 0⟩
      ⟨500, 1, HedgeDirection.long, false, 0⟩ 0 2 = 0 := by
    rw [sim_down_idx, hgrid]
    norm_num [argminAbs, argminAbsGo, expected_move_pct, calculate_expected_move,
      abs_of_nonpos, abs_of_nonneg]
  have e1 : sim_pnl_up ⟨100, 90, 8/5, 6/5, 1000, 1/2, 3/10, 0⟩
      ⟨500, 1, HedgeDirection.long, false, 0⟩ Direction.up 0 2 = -1075 := by
    rw [sim_pnl_up, htot, hupidx]
    rfl
  have e2 : sim_pnl_down ⟨100, 90, 8/5, 6/5, 1000, 1/2, 3/10, 0⟩
      ⟨500, 1, HedgeDirection.long, false, 0⟩ Direction.up 0 2 = -1075 := by
    rw [sim_pnl_down, htot, hdownidx]
    rfl
  have hprob : calculate_probability_itm 100 90 (3/10) 0 0
      (fun _ => (0:ℚ)) Direction.up = 1 := by
    norm_num [calculate_probability_itm]
  have e3 : (simulate_scenarios ⟨100, 90, 8/5, 6/5, 1000, 1/2, 3/10, 0⟩
      ⟨500, 1, HedgeDirection.long, false, 0⟩ Direction.up 2 0 0
      (fun _ => 0)).expected_value = -1075 := by
    have hev : (simulate_scenarios ⟨100, 90, 8/5, 6/5, 1000, 1/2, 3/10, 0⟩
        ⟨500, 1, HedgeDirection.long, false, 0⟩ Direction.up 2 0 0
        (fun _ => 0)).expected_value =
        calculate_probability_itm 100 90 (3/10) 0 0 (fun _ => (0:ℚ)) Direction.up *
            sim_pnl_up ⟨100, 90, 8/5, 6/5, 1000, 1/2, 3/10, 0⟩
              ⟨500, 1, HedgeDirection.long, false, 0⟩ Direction.up 0 2 +
          (1 - calculate_probability_itm 100 90 (3/10) 0 0
              (fun _ => (0:ℚ)) Direction.up) *
            sim_pnl_down ⟨100, 90, 8/5, 6/5, 1000, 1/2, 3/10, 0⟩
              ⟨500, 1, HedgeDirection.long, false, 0⟩ Direction.up 0 2 := rfl
    rw [hev, hprob, e1, e2]
    norm_num
  refine ⟨e3, e1, e2, ?_, ?_⟩
  · rw [e1, e2, e3]
    norm_num
  · rw [e1, e2, e3]
    norm_num

end Sim
